import Mathlib

/-!
Shallow embedding of the IoT ingestion service
(`src/iot-pipeline/services/ingestion/main.py`, class `IoTIngestionService`).

Pure computations (topic parsing, statistics arithmetic, the canonical hash)
are translated directly.  Effectful calls (sink writes, connection bring-up)
are modelled by explicit result records that state which external operations
were attempted, which succeeded, and whether an exception escaped; whether an
external collaborator fails on a given call is an explicit boolean
environment.  Instants (`datetime`) are modelled as `Nat`; the numeric values
carried by readings are modelled as `ℚ`.
-/

namespace IoTIngestion

/-- Metadata values carry either a number or a string; the source
distinguishes the two with `isinstance(value, (int, float))` versus
`isinstance(value, str)` in `store_in_influxdb` (main.py lines 267-271). -/
inductive MetaVal where
  | num (q : ℚ)
  | str (s : String)
deriving DecidableEq

/-- `models.sensor_data.SensorData` as constructed and used by `main.py`
(lines 159-167): identifiers, a timestamp, numeric value and quality, unit,
insertion-ordered metadata, and `data_hash`, absent until attached after
validation (line 177). -/
structure SensorData where
  device_id : String
  sensor_type : String
  timestamp : Nat
  value : ℚ
  unit : String
  quality : ℚ
  metadata : List (String × MetaVal)
  data_hash : Option String
deriving DecidableEq

/-- Decimal rendering of a rational, standing in for Python number
stringification where a numeric value ends up inside a string. -/
def ratRepr (q : ℚ) : String :=
  toString q.num ++ "/" ++ toString q.den

/-- Model of `datetime.isoformat`: an injective rendering of an instant. -/
def isoformat (t : Nat) : String :=
  "ts-" ++ toString t

/-- A deterministic digest of a string, standing in for the cryptographic
hash behind the fingerprint; only its determinism matters here. -/
def hashString (s : String) : Nat :=
  s.toList.foldl (fun h c => (h * 131 + c.toNat) % 1000000007) 5381

/-- Modelled from the spec: `hash_sensor_data` lives in `utils/crypto`,
which is not under `src/` (only its import and its call at main.py line 176
are).  The spec requires a deterministic hash over a canonical,
order-independent representation of `{deviceId, sensorType, timestamp,
value, unit}`, with metadata (and every other field) excluded.  The digest
is modelled as a deterministic hash of that canonical string. -/
def hash_sensor_data (sd : SensorData) : String :=
  toString (hashString ("device_id=" ++ sd.device_id ++
    "|sensor_type=" ++ sd.sensor_type ++
    "|timestamp=" ++ toString sd.timestamp ++
    "|value=" ++ ratRepr sd.value ++
    "|unit=" ++ sd.unit))

/-- Python's `str.split(sep)` for a one-character separator, structurally
recursive over the character list.  `"".split('/') = [""]` and separators
produce empty segments, as in Python. -/
def splitChar (sep : Char) : List Char → List (List Char)
  | [] => [[]]
  | c :: rest =>
    let r := splitChar sep rest
    if c = sep then [] :: r
    else
      match r with
      | [] => [[c]]
      | h :: t => (c :: h) :: t

/-- `msg.topic.split('/')` (main.py line 128). -/
def topic_split (topic : String) : List String :=
  (splitChar '/' topic.toList).map (fun cs => String.mk cs)

/-- The classification produced by `on_mqtt_message`: which processing
coroutine is spawned, with which arguments, or that the message falls
through every branch and is dropped. -/
inductive Route where
  | sensorData (device_id : String) (sensor_type : String)
  | deviceStatus (device_id : String)
  | deviceConfig (device_id : String)
  | dropped
deriving DecidableEq

/-- The branch cascade of `on_mqtt_message` (main.py lines 128-146) on the
already-split topic.  Faithful to the source indices: the first branch tests
`topic_parts[3] == 'data'` and reads the device id from `topic_parts[2]` and
the sensor type from `topic_parts[3]` (falling back to `'unknown'` when the
topic has at most four segments); the status and config branches test
`topic_parts[2]` and read the device id from `topic_parts[1]`. -/
def route_topic (topic_parts : List String) : Route :=
  if 4 ≤ topic_parts.length ∧ topic_parts.getD 3 "" = "data" then
    Route.sensorData (topic_parts.getD 2 "")
      (if 4 < topic_parts.length then topic_parts.getD 3 "" else "unknown")
  else if 3 ≤ topic_parts.length ∧ topic_parts.getD 2 "" = "status" then
    Route.deviceStatus (topic_parts.getD 1 "")
  else if 3 ≤ topic_parts.length ∧ topic_parts.getD 2 "" = "config" then
    Route.deviceConfig (topic_parts.getD 1 "")
  else
    Route.dropped

/-- `on_mqtt_message` topic classification (main.py lines 124-146). -/
def on_mqtt_message (topic : String) : Route :=
  route_topic (topic_split topic)

/-- Outcome of one call of the message handler: the route taken, the change
to `messages_failed`, and whether an exception escaped the handler. -/
structure HandlerResult where
  route : Route
  messages_failed_delta : Nat
  raised : Bool
deriving DecidableEq

/-- The whole body of `on_mqtt_message` runs inside `try/except` (main.py
lines 126-150).  The try body only splits and indexes the topic string and
spawns tasks, none of which raises, so the `except` branch — the only place
that increments `messages_failed` — is unreachable, and nothing escapes into
the subscription loop. -/
def handle_mqtt_message (topic : String) : HandlerResult :=
  { route := on_mqtt_message topic
    messages_failed_delta := 0
    raised := false }

/-- The fields of a device-status payload read by `process_device_status`
(main.py lines 211-216); `reported_last_seen` models any device-reported
last-seen instant present in the payload, which the source never reads for
the stored map. -/
structure DeviceStatusPayload where
  status : Option String
  battery_level : Option ℚ
  signal_strength : Option ℚ
  firmware_version : Option String
  ip_address : Option String
  reported_last_seen : Option String
deriving DecidableEq

/-- `process_device_status` (main.py lines 202-218): the Redis key and the
map written by `hset`.  `last_seen` is `datetime.utcnow().isoformat()` at
ingestion time (line 214); the device-reported value is not consulted. -/
def process_device_status (device_id : String) (data : DeviceStatusPayload)
    (now : Nat) : String × List (String × String) :=
  ("device_status:" ++ device_id,
    [("status", data.status.getD "unknown"),
     ("battery_level", ratRepr (data.battery_level.getD 0)),
     ("signal_strength", ratRepr (data.signal_strength.getD 0)),
     ("last_seen", isoformat now),
     ("firmware_version", data.firmware_version.getD ""),
     ("ip_address", data.ip_address.getD "")])

/-- Failure environment for one fanout: whether each of the four sink
clients raises on its write call for this reading. -/
structure SinkFailures where
  influxFails : Bool
  kafkaFails : Bool
  redisFails : Bool
  mongoFails : Bool
deriving DecidableEq

/-- The decoded JSON payload of a sensor-data message (main.py lines
156-166): `value` is required, the rest use `data.get` defaults. -/
structure Payload where
  timestamp : Option Nat
  value : ℚ
  unit : Option String
  quality : Option ℚ
  metadata : Option (List (String × MetaVal))
deriving DecidableEq

/-- Construction of the `SensorData` object (main.py lines 159-167):
timestamp defaults to the ingestion instant `now`, unit to `""`, quality to
`1.0`, metadata to `{}`; no hash yet. -/
def mkSensorData (device_id sensor_type : String) (now : Nat) (p : Payload) :
    SensorData :=
  { device_id := device_id
    sensor_type := sensor_type
    timestamp := p.timestamp.getD now
    value := p.value
    unit := p.unit.getD ""
    quality := p.quality.getD 1
    metadata := p.metadata.getD []
    data_hash := none }

/-- `store_in_influxdb` (main.py lines 255-277): the `except` clause logs
and then re-raises, so the call yields (written?, raised?) = (¬fails,
fails). -/
def store_in_influxdb (fails : Bool) : Bool × Bool := (!fails, fails)

/-- `publish_to_kafka` (main.py lines 279-290): logs and re-raises, exactly
like the InfluxDB write. -/
def publish_to_kafka (fails : Bool) : Bool × Bool := (!fails, fails)

/-- `cache_latest_reading` (main.py lines 292-312): the `except` clause only
logs — the failure is swallowed and never raised to the caller. -/
def cache_latest_reading (fails : Bool) : Bool × Bool := (!fails, false)

/-- `store_metadata_in_mongodb` (main.py lines 314-329): logs only, the
failure is swallowed. -/
def store_metadata_in_mongodb (fails : Bool) : Bool × Bool := (!fails, false)

/-- Observable outcome of one `process_sensor_data` call: the hash attached
to the reading (if any), the reading handed to the sink writes (if they were
reached), which sink writes were attempted and which completed, the changes
to the two counters, and whether an exception escaped the task. -/
structure ProcResult where
  data_hash : Option String
  fanout_input : Option SensorData
  influx_attempted : Bool
  influx_written : Bool
  kafka_attempted : Bool
  kafka_written : Bool
  redis_attempted : Bool
  redis_written : Bool
  mongo_attempted : Bool
  mongo_written : Bool
  processed_delta : Nat
  failed_delta : Nat
  raised : Bool
deriving DecidableEq

/-- `process_sensor_data` (main.py lines 152-200).  The external
`validate_sensor_reading` (from `utils/validation`, not under `src/`) is an
opaque collaborator; its boolean outcome for this reading is the `is_valid`
argument.  Control flow of the source: an invalid reading logs and returns
(no counter change, no hash, no sink); otherwise the hash is attached and
the four sink writes run in sequence inside the task-level `try`.  An
exception re-raised by the InfluxDB or Kafka write aborts the remaining
writes and is caught by the task-level `except`, which increments
`messages_failed`; Redis and MongoDB failures are swallowed inside their own
writers, after which `messages_processed` is incremented.  Nothing ever
escapes the task. -/
def process_sensor_data (env : SinkFailures) (is_valid : Bool)
    (device_id sensor_type : String) (now : Nat) (p : Payload) : ProcResult :=
  let sd := mkSensorData device_id sensor_type now p
  if is_valid = false then
    { data_hash := none
      fanout_input := none
      influx_attempted := false, influx_written := false
      kafka_attempted := false, kafka_written := false
      redis_attempted := false, redis_written := false
      mongo_attempted := false, mongo_written := false
      processed_delta := 0, failed_delta := 0, raised := false }
  else
    let h := hash_sensor_data sd
    let sdh := { sd with data_hash := some h }
    let influx := store_in_influxdb env.influxFails
    if influx.2 then
      { data_hash := some h
        fanout_input := some sdh
        influx_attempted := true, influx_written := influx.1
        kafka_attempted := false, kafka_written := false
        redis_attempted := false, redis_written := false
        mongo_attempted := false, mongo_written := false
        processed_delta := 0, failed_delta := 1, raised := false }
    else
      let kafka := publish_to_kafka env.kafkaFails
      if kafka.2 then
        { data_hash := some h
          fanout_input := some sdh
          influx_attempted := true, influx_written := influx.1
          kafka_attempted := true, kafka_written := kafka.1
          redis_attempted := false, redis_written := false
          mongo_attempted := false, mongo_written := false
          processed_delta := 0, failed_delta := 1, raised := false }
      else
        let redis := cache_latest_reading env.redisFails
        let mongo := store_metadata_in_mongodb env.mongoFails
        { data_hash := some h
          fanout_input := some sdh
          influx_attempted := true, influx_written := influx.1
          kafka_attempted := true, kafka_written := kafka.1
          redis_attempted := true, redis_written := redis.1
          mongo_attempted := true, mongo_written := mongo.1
          processed_delta := 1, failed_delta := 0, raised := false }

/-- The in-process mutable statistics of the service (main.py lines 39-41):
two counters and the active-device set (modelled as a duplicate-free
list). -/
structure StatsState where
  messages_processed : Nat
  messages_failed : Nat
  devices_active : List String
deriving DecidableEq

/-- `self.messages_processed += 1; self.devices_active.add(device_id)`
(main.py lines 192-193). -/
def record_processed (s : StatsState) (device_id : String) : StatsState :=
  { s with
    messages_processed := s.messages_processed + 1
    devices_active :=
      if device_id ∈ s.devices_active then s.devices_active
      else device_id :: s.devices_active }

/-- `self.messages_failed += 1` (main.py lines 150 and 200). -/
def record_failed (s : StatsState) : StatsState :=
  { s with messages_failed := s.messages_failed + 1 }

/-- The `stats` dict built at each reporting tick (main.py lines 337-346). -/
structure StatsSnapshot where
  timestamp : Nat
  messages_processed : Nat
  messages_failed : Nat
  active_devices : Nat
  success_rate : ℚ
deriving DecidableEq

/-- Lines 337-346 of main.py: `success_rate` is
`processed / (processed + failed)` when the denominator is positive, else
`0`; `active_devices` is the size of the set. -/
def make_stats (now : Nat) (s : StatsState) : StatsSnapshot :=
  { timestamp := now
    messages_processed := s.messages_processed
    messages_failed := s.messages_failed
    active_devices := s.devices_active.length
    success_rate :=
      if 0 < s.messages_processed + s.messages_failed then
        (s.messages_processed : ℚ) /
          ((s.messages_processed : ℚ) + (s.messages_failed : ℚ))
      else 0 }

/-- One iteration of `run_statistics_reporter` (main.py lines 333-365) after
the sleep: the snapshot is built, then stored in Redis (`storeOk` says
whether that `set` call succeeds), and only then are the counters and the
device set reset (lines 360-362).  A failing store raises into the loop's
`except`, which only logs: the snapshot is not published and the reset is
skipped, leaving the state untouched.  Result: the published snapshot (if
any) and the state after the tick. -/
def run_statistics_tick (s : StatsState) (now : Nat) (storeOk : Bool) :
    Option StatsSnapshot × StatsState :=
  if storeOk then (some (make_stats now s), ⟨0, 0, []⟩)
  else (none, s)

/-- Whether each connection step of `initialize` succeeds: InfluxDB, Redis
(the cache), MongoDB, the Kafka producer, the MQTT broker, in the source's
order (main.py lines 46-92). -/
structure ConnEnv where
  influxOk : Bool
  redisOk : Bool
  mongoOk : Bool
  kafkaOk : Bool
  mqttOk : Bool
deriving DecidableEq

/-- Observable outcome of `initialize`: which connections were established,
the `running` flag, and whether the call raised. -/
structure InitResult where
  influx_connected : Bool
  redis_connected : Bool
  mongo_connected : Bool
  kafka_connected : Bool
  mqtt_connected : Bool
  running : Bool
  raised : Bool
deriving DecidableEq

/-- `IoTIngestionService.initialize` (main.py lines 43-99): the five
connection steps run in sequence inside one `try`; the first failure skips
every later step and re-raises (line 99).  `self.running = True` (line 94)
executes only after all five steps succeeded. -/
def init_connections (env : ConnEnv) : InitResult :=
  if env.influxOk = false then ⟨false, false, false, false, false, false, true⟩
  else if env.redisOk = false then ⟨true, false, false, false, false, false, true⟩
  else if env.mongoOk = false then ⟨true, true, false, false, false, false, true⟩
  else if env.kafkaOk = false then ⟨true, true, true, false, false, false, true⟩
  else if env.mqttOk = false then ⟨true, true, true, true, false, false, true⟩
  else ⟨true, true, true, true, true, true, false⟩

/-- Observable outcome of `run`: the initialization result, whether the MQTT
network loop was started (`loop_start`, line 396 — the topic subscriptions
in `on_mqtt_connect` only ever fire once the loop runs on an established
connection), whether the inbound subscription was therefore established, and
whether the statistics task was started (line 399). -/
structure RunResult where
  init : InitResult
  loop_started : Bool
  subscribed : Bool
  stats_task_started : Bool
deriving DecidableEq

/-- `run` (main.py lines 390-414): `initialize` is awaited first; if it
raises, the `except` re-raises after logging and `loop_start`, the
subscription and the statistics task are never reached. -/
def run_service (env : ConnEnv) : RunResult :=
  let r := init_connections env
  if r.raised then ⟨r, false, false, false⟩
  else ⟨r, true, r.mqtt_connected, true⟩

/-- A concrete well-formed sensor payload used by witnesses and
counterexamples. -/
def payload0 : Payload :=
  { timestamp := some 100
    value := 450
    unit := some "ppm"
    quality := some 1
    metadata := some [] }

/-- Concrete reading: plain metadata, no hash. -/
def readingA : SensorData :=
  { device_id := "device-1", sensor_type := "co2", timestamp := 100
    value := 450, unit := "ppm", quality := 1
    metadata := [("site", MetaVal.str "north")], data_hash := none }

/-- Concrete reading agreeing with `readingA` on the five canonical fields
but differing in quality, metadata content and order, and `data_hash`. -/
def readingB : SensorData :=
  { device_id := "device-1", sensor_type := "co2", timestamp := 100
    value := 450, unit := "ppm", quality := 1/2
    metadata := [("batch", MetaVal.num 7), ("site", MetaVal.str "north")]
    data_hash := some "tag" }

/-- A startup environment in which only the cache (Redis) connection
fails. -/
def envRedisDown : ConnEnv := ⟨true, false, true, true, true⟩

/-- C1 (counterexample): the claimed all-pairs fanout isolation fails on the
code.  With only the Kafka (stream-bus) write failing, the re-raised
exception aborts the fanout before the Redis and MongoDB writes are even
attempted (the InfluxDB write, which ran first, did complete); with only the
InfluxDB (time-series) write failing, the Kafka write is never attempted —
refuting the claimed "vice versa". -/
theorem fanout_isolation_cex :
    (process_sensor_data ⟨false, true, false, false⟩ true "device-1" "co2" 0
      payload0).redis_attempted = false ∧
    (process_sensor_data ⟨false, true, false, false⟩ true "device-1" "co2" 0
      payload0).mongo_attempted = false ∧
    (process_sensor_data ⟨false, true, false, false⟩ true "device-1" "co2" 0
      payload0).influx_written = true ∧
    (process_sensor_data ⟨true, false, false, false⟩ true "device-1" "co2" 0
      payload0).kafka_attempted = false :=
  ⟨rfl, rfl, rfl, rfl⟩

/-- C1 (amended): actual failure isolation of the fanout in
`process_sensor_data`, for every validated reading and failure environment.
No sink failure ever escapes the task.  A cache or document-store failure is
swallowed in place and prevents nothing (all four writes are attempted and
the message still counts as processed).  If the stream-bus write fails, the
time-series write has already completed.  However, a time-series failure
aborts the stream-bus, cache and document-store writes, and a stream-bus
failure aborts the cache and document-store writes; in both cases the
message counts as failed instead of processed. -/
theorem fanout_isolation_amended :
    ∀ (e : SinkFailures) (d s : String) (n : Nat) (p : Payload),
    (process_sensor_data e true d s n p).raised = false ∧
    (process_sensor_data e true d s n p).influx_attempted = true ∧
    (process_sensor_data e true d s n p).influx_written = !e.influxFails ∧
    (process_sensor_data e true d s n p).kafka_attempted = !e.influxFails ∧
    (process_sensor_data e true d s n p).kafka_written =
      (!e.influxFails && !e.kafkaFails) ∧
    (process_sensor_data e true d s n p).redis_attempted =
      (!e.influxFails && !e.kafkaFails) ∧
    (process_sensor_data e true d s n p).redis_written =
      (!e.influxFails && !e.kafkaFails && !e.redisFails) ∧
    (process_sensor_data e true d s n p).mongo_attempted =
      (!e.influxFails && !e.kafkaFails) ∧
    (process_sensor_data e true d s n p).mongo_written =
      (!e.influxFails && !e.kafkaFails && !e.mongoFails) ∧
    (process_sensor_data e true d s n p).processed_delta =
      (if !e.influxFails && !e.kafkaFails then 1 else 0) ∧
    (process_sensor_data e true d s n p).failed_delta =
      (if !e.influxFails && !e.kafkaFails then 0 else 1) := by
  rintro ⟨a, b, c, d'⟩ d s n p
  cases a <;> cases b <;>
    exact ⟨rfl, rfl, rfl, rfl, rfl, rfl, rfl, rfl, rfl, rfl, rfl⟩

/-- C2: `data_hash` is attached exactly when the reading passed validation; a
rejected reading never receives a hash and no sink write is attempted for
it; and whenever the fanout is reached, the reading handed to it carries the
hash. -/
theorem data_hash_iff_validated :
    ∀ (e : SinkFailures) (v : Bool) (d s : String) (n : Nat) (p : Payload),
    (process_sensor_data e v d s n p).data_hash =
      (if v then some (hash_sensor_data (mkSensorData d s n p)) else none) ∧
    (process_sensor_data e v d s n p).fanout_input =
      (if v then
        some { mkSensorData d s n p with
               data_hash := some (hash_sensor_data (mkSensorData d s n p)) }
       else none) ∧
    ((process_sensor_data e v d s n p).influx_attempted ||
     (process_sensor_data e v d s n p).kafka_attempted ||
     (process_sensor_data e v d s n p).redis_attempted ||
     (process_sensor_data e v d s n p).mongo_attempted) = v ∧
    Option.all (fun x => x.data_hash.isSome)
      (process_sensor_data e v d s n p).fanout_input = true := by
  rintro ⟨a, b, c, d'⟩ v d s n p
  cases v <;> cases a <;> cases b <;> exact ⟨rfl, rfl, rfl, rfl⟩

/-- C3: the code drops the very sensor-data subjects it subscribes to.  The
subscription comment and pattern (main.py line 107) promise that
`carbon/sensors/{device_id}/{sensor_type}/data` is sensor data, but the
handler tests `topic_parts[3] == 'data'`, which for a five-segment data
subject is the sensor-type slot, so a reading with sensor type
`temperature` matches no branch and is silently dropped. -/
theorem sensor_topic_misroute_eval :
    on_mqtt_message "carbon/sensors/device-1/temperature/data" =
      Route.dropped := by decide

/-- C4: the code drops the very status subjects it subscribes to.  The
subscription comment and pattern (main.py line 108) promise that
`carbon/devices/{device_id}/status` is a status update, but the handler
tests `topic_parts[2] == 'status'`, which for that four-segment subject is
the device-id slot, so the message matches no branch and
`process_device_status` never runs; the storage routine itself, when
invoked, does write `last_seen` from the ingestion clock, ignoring the
device-reported value. -/
theorem status_topic_misroute_eval :
    on_mqtt_message "carbon/devices/device-1/status" = Route.dropped ∧
    (process_device_status "device-1"
      ⟨some "online", some 87, some (-60), some "1.2.3", some "10.0.0.5",
       some "ts-1"⟩ 555).2.lookup "last_seen" = some (isoformat 555) ∧
    (process_device_status "device-1"
      ⟨some "online", some 87, some (-60), some "1.2.3", some "10.0.0.5",
       some "ts-1"⟩ 555).1 = "device_status:device-1" := by
  refine ⟨by decide, by decide, rfl⟩

/-- C5 (counterexample): a reading that fails validation is dropped by an
early `return` (main.py line 173) without touching `messages_failed`, so the
claimed counter increment does not happen. -/
theorem invalid_reading_counter_cex :
    (process_sensor_data ⟨false, false, false, false⟩ false "device-1" "co2"
      0 payload0).failed_delta = 0 := rfl

/-- C5 (amended): every reading that fails validation is dropped before any
sink write is attempted and receives no hash — but neither counter changes
and nothing is recorded about the failure beyond a log line. -/
theorem invalid_reading_dropped_amended :
    ∀ (e : SinkFailures) (d s : String) (n : Nat) (p : Payload),
    process_sensor_data e false d s n p =
      { data_hash := none
        fanout_input := none
        influx_attempted := false, influx_written := false
        kafka_attempted := false, kafka_written := false
        redis_attempted := false, redis_written := false
        mongo_attempted := false, mongo_written := false
        processed_delta := 0, failed_delta := 0, raised := false } := by
  intro e d s n p
  rfl

/-- C6 (counterexample): the unroutable subject `domain/unknown/x` is
dropped, but the failure counter is not incremented (the only increment in
the handler sits in the unreachable `except` branch); moreover some subjects
outside the three routable shapes are not dropped at all — the four-segment
subject `carbon/x/y/data` is misclassified as sensor data. -/
theorem unroutable_handling_cex :
    (handle_mqtt_message "domain/unknown/x").messages_failed_delta = 0 ∧
    (handle_mqtt_message "domain/unknown/x").route = Route.dropped ∧
    on_mqtt_message "carbon/x/y/data" = Route.sensorData "y" "unknown" :=
  ⟨rfl, by decide, by decide⟩

/-- C6 (amended): every subject matching none of the handler's three match
conditions (fourth segment `data`; third segment `status`; third segment
`config`) is dropped without raising out of the message handler, and the
failure counter is not incremented. -/
theorem unroutable_dropped_amended :
    ∀ t : String,
    ¬ (4 ≤ (topic_split t).length ∧ (topic_split t).getD 3 "" = "data") →
    ¬ (3 ≤ (topic_split t).length ∧ (topic_split t).getD 2 "" = "status") →
    ¬ (3 ≤ (topic_split t).length ∧ (topic_split t).getD 2 "" = "config") →
    handle_mqtt_message t = ⟨Route.dropped, 0, false⟩ := by
  intro t h1 h2 h3
  unfold handle_mqtt_message on_mqtt_message route_topic
  rw [if_neg h1, if_neg h2, if_neg h3]

/-- C6 (witness): the amended statement at the concrete subject
`domain/unknown/x`. -/
theorem unroutable_dropped_witness :
    handle_mqtt_message "domain/unknown/x" = ⟨Route.dropped, 0, false⟩ :=
  unroutable_dropped_amended "domain/unknown/x" (by decide) (by decide)
    (by decide)

/-- C7: a reporting tick whose store succeeds publishes the snapshot with
`success_rate = processed / (processed + failed)` (0 when the denominator is
0) and resets both counters and the active-device set, so windows do not
accumulate: after a 10-processed/2-failed window followed by a window with
no traffic, the second published snapshot shows 0 processed, 0 failed and an
empty device set. -/
theorem stats_tick_publishes_and_resets :
    ∀ (s : StatsState) (n : Nat),
    (run_statistics_tick s n true).1 =
      some { timestamp := n
             messages_processed := s.messages_processed
             messages_failed := s.messages_failed
             active_devices := s.devices_active.length
             success_rate :=
               if 0 < s.messages_processed + s.messages_failed then
                 (s.messages_processed : ℚ) /
                   ((s.messages_processed : ℚ) + (s.messages_failed : ℚ))
               else 0 } ∧
    (run_statistics_tick s n true).2 = ⟨0, 0, []⟩ ∧
    (run_statistics_tick
      ((run_statistics_tick ⟨10, 2, ["device-1", "device-2"]⟩ 100 true).2)
      160 true).1 = some ⟨160, 0, 0, 0, 0⟩ := by
  intro s n
  refine ⟨rfl, rfl, ?_⟩
  norm_num [run_statistics_tick, make_stats]

/-- C8: if any connection step of startup fails, the service never sets
`running`, the MQTT loop is never started, no inbound subscription is
established and the statistics task is never launched. -/
theorem startup_failure_never_running :
    ∀ env : ConnEnv,
    (env.influxOk && env.redisOk && env.mongoOk && env.kafkaOk &&
      env.mqttOk) = false →
    (init_connections env).running = false ∧
    (run_service env).loop_started = false ∧
    (run_service env).subscribed = false ∧
    (run_service env).stats_task_started = false := by
  rintro ⟨a, b, c, d, e⟩ h
  revert h
  cases a <;> cases b <;> cases c <;> cases d <;> cases e <;> decide

/-- C8 (witness): the failing-cache startup environment satisfies the
hypothesis, and the service neither runs nor subscribes there. -/
theorem startup_failure_never_running_witness :
    ((envRedisDown.influxOk && envRedisDown.redisOk && envRedisDown.mongoOk
      && envRedisDown.kafkaOk && envRedisDown.mqttOk) = false) ∧
    ((init_connections envRedisDown).running = false ∧
     (run_service envRedisDown).loop_started = false ∧
     (run_service envRedisDown).subscribed = false ∧
     (run_service envRedisDown).stats_task_started = false) :=
  ⟨by decide, startup_failure_never_running envRedisDown (by decide)⟩

/-- C9: the fingerprint is a pure function of the five canonical fields
only — two readings agreeing on device id, sensor type, timestamp, value
and unit hash identically, whatever their quality, metadata or prior hash
field. -/
theorem hash_canonical_fields_only :
    ∀ a b : SensorData,
    a.device_id = b.device_id → a.sensor_type = b.sensor_type →
    a.timestamp = b.timestamp → a.value = b.value → a.unit = b.unit →
    hash_sensor_data a = hash_sensor_data b := by
  intro a b h1 h2 h3 h4 h5
  unfold hash_sensor_data
  rw [h1, h2, h3, h4, h5]

/-- C9 (witness): `readingA` and `readingB` agree on the canonical fields
while differing in quality, metadata and hash field, and their fingerprints
coincide. -/
theorem hash_canonical_fields_only_witness :
    readingA.device_id = readingB.device_id ∧
    readingA.quality ≠ readingB.quality ∧
    hash_sensor_data readingA = hash_sensor_data readingB :=
  ⟨rfl, by norm_num [readingA, readingB],
   hash_canonical_fields_only readingA readingB rfl rfl rfl rfl rfl⟩

/-- C10: when the store of the snapshot fails at a tick, nothing is
published and the reset is skipped — the counters and the device set keep
their values, so the next successfully published snapshot carries the
previous window's counts on top of its own (here 10+1 processed and 2
failed). -/
theorem stats_store_failure_skips_reset :
    ∀ (s : StatsState) (n : Nat),
    run_statistics_tick s n false = (none, s) ∧
    (run_statistics_tick
      (record_processed ((run_statistics_tick ⟨10, 2, []⟩ 100 false).2)
        "device-1") 160 true).1 =
      some ⟨160, 11, 2, 1, (11 : ℚ) / 13⟩ := by
  intro s n
  refine ⟨rfl, ?_⟩
  norm_num [run_statistics_tick, make_stats, record_processed]

end IoTIngestion
